import Mathlib

/-!
Verification of `src/script.js` of the mood-detection repository: a shallow
embedding of its state, per-frame render loop, camera start/stop plumbing,
snapshotting, camera enumeration and theme handling, with theorems settling
the specification claims.

Numbers that JavaScript holds as IEEE doubles (emotion scores, durations)
are modelled as rationals; DOM and platform side effects are modelled as an
explicit event trace.
-/

namespace MoodDetection

/-- One entry of a face's emotion list, as produced by the external detector:
`{ emotion, score }`. -/
structure Emotion where
  emotion : String
  score : ℚ
deriving Repr, DecidableEq

/-- A detected face; the loop only reads its `emotion` list
(`faces[0]?.emotion`). -/
structure Face where
  emotion : List Emotion
deriving Repr, DecidableEq

/-- The detector's result; the loop only reads `result.face`
(`result.face || []` is modelled by the list being total). -/
structure DetectResult where
  face : List Face
deriving Repr, DecidableEq

/-- A media stream: the loop only touches its tracks (`stream.getTracks()`),
identified here by numbers. -/
structure MediaStream where
  tracks : List Nat
deriving Repr, DecidableEq

/-- The mutable top-level state of the script:
`let stream, running = false, rafId = null`. -/
structure St where
  running : Bool
  rafId : Option Nat
  stream : Option MediaStream
deriving Repr, DecidableEq

/-- Observable side effects of the script: detector calls, canvas
operations, platform calls and localStorage traffic. -/
inductive Event where
  | detect
  | clearRect (x y : ℚ) (w h : Nat)
  | drawCanvas
  | drawFace
  | cancelAnimationFrame (id : Nat)
  | stopTrack (t : Nat)
  | getUserMedia
  | play
  | callLoop
  | alertShown
  | requestAnimationFrame
  | createCanvas (w h : Nat)
  | drawVideoScaled (x y : ℚ) (w h : Nat)
  | drawOverlayAt (x y : ℚ)
  | download (name : String)
  | storageRead (key : String)
  | storageWrite (key value : String)
  | setBodyTheme (theme : String)
  | loadModels
  | warmupModels
deriving Repr, DecidableEq

/-- Rounding to the nearest integer, ties towards positive infinity, as
`Number.prototype.toFixed` specifies for exactly representable inputs:
the floor of `q + 1/2`, computed on the numerator and denominator. -/
def jsRound (q : ℚ) : Int := Int.fdiv (2 * q.num + q.den) (2 * q.den)

/-- JavaScript `toFixed(1)` on a rational: the number rounded to one
decimal digit, rendered with exactly one digit after the point. -/
def toFixed1 (v : ℚ) : String :=
  let n : Int := jsRound (v * 10)
  let sign := if n < 0 then "-" else ""
  sign ++ toString (n.natAbs / 10) ++ "." ++ toString (n.natAbs % 10)

/-- Line 25: `const pct = v => toFixed1(v * 100) + percent sign`. -/
def pct (v : ℚ) : String := toFixed1 (v * 100) ++ "%"

/-- Line 26: `const clamp01 = v => Math.max(0, Math.min(1, v));`. -/
def clamp01 (v : ℚ) : ℚ := max 0 (min 1 v)

/-- The function `insertByScore e l` inserts `e` after every element whose score is at
least `e.score`: the stable descending insertion underlying
`[...emotions].sort((a, b) => b.score - a.score)`. -/
def insertByScore (e : Emotion) : List Emotion → List Emotion
  | [] => [e]
  | f :: fs => if f.score < e.score then e :: f :: fs else f :: insertByScore e fs

/-- The stable sort of the emotion list by strictly decreasing score,
modelling `[...emotions].sort((a, b) => b.score - a.score)` (line 177). -/
def sortByScoreDesc : List Emotion → List Emotion
  | [] => []
  | e :: es => insertByScore e (sortByScoreDesc es)

/-- Line 177: `const top = [...emotions].sort((a, b) => b.score - a.score)[0]`:
the head of the descending sort (a placeholder when the list is
empty; the caller guards on `emotions.length`). -/
def topOf (l : List Emotion) : Emotion := (sortByScoreDesc l).headD ⟨"", 0⟩

/-- The rendering of the emotion-list panel: either the single
`No face detected.` message or one row per emotion. -/
inductive EmotionListView where
  | noFace
  | rows (rows : List (String × String × String))
deriving Repr, DecidableEq

/-- The function `renderEmotions` (lines 129-147): clears the panel; an absent or empty
list yields the `No face detected.` message, otherwise one row per entry
showing the emotion name, its percentage text and a fill of the same
percentage width. -/
def renderEmotions (list : List Emotion) : EmotionListView :=
  if list.length = 0 then .noFace
  else .rows (list.map fun e => (e.emotion, pct e.score, pct e.score))

/-- The DOM widgets the loop writes: texts as strings, the two
template-string bar widths as their numeric percentage values. -/
structure UI where
  moodBadge : String
  topMood : String
  topConfWidth : String
  facesText : String
  facesBarVal : ℚ
  emotionList : EmotionListView
  fpsText : String
  fpsBarVal : ℚ
deriving Repr, DecidableEq

/-- One iteration of `loop` (lines 156-194). Inputs: the `running` flag,
the previous widget state (untouched when not running), the overlay canvas
size, the detector's result and the measured frame duration `dt`
(milliseconds). Returns the updated widgets and the iteration's event
trace. When `running` is false the body returns at once: no events, no
changes. -/
def loopBody (running : Bool) (ui0 : UI) (ow oh : Nat) (result : DetectResult)
    (dt : ℚ) : UI × List Event :=
  if running = false then (ui0, [])
  else
    let faces := result.face
    let emotions := (faces.head?.map Face.emotion).getD []
    let fps : ℚ := 1000 / dt
    let ui : UI :=
      { moodBadge :=
          if emotions.length ≠ 0 then
            "Mood: " ++ (topOf emotions).emotion ++ " (" ++ pct (topOf emotions).score ++ ")"
          else "Mood: —"
        topMood := if emotions.length ≠ 0 then (topOf emotions).emotion else "—"
        topConfWidth := if emotions.length ≠ 0 then pct (clamp01 (topOf emotions).score) else "0%"
        facesText := toString faces.length
        facesBarVal := min 100 ((faces.length : ℚ) / 5 * 100)
        emotionList := renderEmotions emotions
        fpsText := toFixed1 fps ++ " fps"
        fpsBarVal := min 100 (fps / 60 * 100) }
    (ui, [.detect, .clearRect 0 0 ow oh, .drawCanvas, .drawFace, .requestAnimationFrame])

/-- The function `stopCamera` (lines 109-115): clears `running`, cancels a pending
animation frame, stops every track of a held stream and drops both
handles. -/
def stopCamera (s : St) : St × List Event :=
  let evCancel := match s.rafId with
    | some i => [Event.cancelAnimationFrame i]
    | none => []
  let evStop := match s.stream with
    | some ms => ms.tracks.map Event.stopTrack
    | none => []
  (⟨false, none, none⟩, evCancel ++ evStop)

/-- The function `startCamera` (lines 86-107): first `stopCamera()`, then acquisition of
a fresh stream. `acquired = none` models `getUserMedia` throwing (the catch
branch alerts and leaves the stopped state); `acquired = some ns` models
success: the stream is attached, playback starts, `running` is set and the
loop is entered. -/
def startCamera (s : St) (acquired : Option MediaStream) : St × List Event :=
  let p := stopCamera s
  match acquired with
  | none => (p.1, p.2 ++ [Event.getUserMedia, Event.alertShown])
  | some ns =>
      ({ running := true, rafId := p.1.rafId, stream := some ns },
        p.2 ++ [Event.getUserMedia, Event.play, Event.callLoop])

/-- The function `snapshot` (lines 117-127): with both elements present it creates a
canvas of the overlay's size, draws the video scaled to that size, the
overlay at the origin, and downloads the PNG `mood-<timestamp>.png`; with
either element missing it returns with no effect. -/
def snapshot (video : Option Unit) (overlay : Option (Nat × Nat)) (ts : Nat) :
    List Event :=
  match video, overlay with
  | some _, some (w, h) =>
      [.createCanvas w h, .drawVideoScaled 0 0 w h, .drawOverlayAt 0 0,
       .download ("mood-" ++ toString ts ++ ".png")]
  | _, _ => []

/-- An enumerated media device as seen by `listCameras`. -/
structure Device where
  kind : String
  deviceId : String
  label : String
deriving Repr, DecidableEq

/-- An `<option>` appended to the camera select. A freshly created option
has empty value and is enabled unless set otherwise. -/
structure OptionEl where
  value : String
  text : String
  disabled : Bool
deriving Repr, DecidableEq

/-- The function `listCameras` (lines 65-84), successful-enumeration path: filters the
devices to video inputs, clears the select, and returns its new option
list: the single disabled `No camera found` option when no camera exists,
otherwise one option per camera with the device id as value and the label
(or `Camera <i+1>` when the label is empty) as text. -/
def listCameras (devices : List Device) : List OptionEl :=
  let cams := devices.filter fun d => d.kind = "videoinput"
  if cams.length = 0 then [⟨"", "No camera found", true⟩]
  else cams.mapIdx fun i c =>
    ⟨c.deviceId, if c.label = "" then "Camera " ++ toString (i + 1) else c.label, false⟩

/-- The localStorage/side-effect trace of `init` (lines 29-63): the one
`theme` read (restoring the body attribute when present), model loading and
warmup, and the temporary permission stream whose tracks are stopped at
once. -/
def initEvents (savedTheme : Option String) (tmpTracks : List Nat) : List Event :=
  [Event.storageRead "theme"]
    ++ (match savedTheme with
        | some t => [Event.setBodyTheme t]
        | none => [])
    ++ [Event.loadModels, Event.warmupModels, Event.getUserMedia]
    ++ tmpTracks.map Event.stopTrack

/-- The theme-toggle click handler (lines 206-211): flips `dark`/`light`
from the current body attribute, sets the attribute and writes the one
`theme` key. -/
def themeToggleEvents (cur : Option String) : List Event :=
  let next := if cur = some "dark" then "light" else "dark"
  [Event.setBodyTheme next, Event.storageWrite "theme" next]

/-- The key a storage event touches, if it is one. -/
def storageKey : Event → Option String
  | .storageRead k => some k
  | .storageWrite k _ => some k
  | _ => none

/-- A list of emotions in weakly decreasing score order. -/
def ScoreSorted (l : List Emotion) : Prop :=
  l.Pairwise fun a b => b.score ≤ a.score

theorem mem_insertByScore {b a : Emotion} {l : List Emotion} :
    b ∈ insertByScore a l ↔ b = a ∨ b ∈ l := by
  induction l with
  | nil => simp [insertByScore]
  | cons f fs ih =>
    by_cases h : f.score < a.score
    · simp only [insertByScore, if_pos h, List.mem_cons]
    · simp only [insertByScore, if_neg h, List.mem_cons, ih]
      tauto

theorem insertByScore_ne_nil (a : Emotion) (l : List Emotion) :
    insertByScore a l ≠ [] := by
  cases l with
  | nil => simp [insertByScore]
  | cons f fs =>
    simp only [insertByScore]
    split <;> simp

theorem scoreSorted_insertByScore {a : Emotion} {l : List Emotion}
    (h : ScoreSorted l) : ScoreSorted (insertByScore a l) := by
  induction l with
  | nil => simp [insertByScore, ScoreSorted]
  | cons f fs ih =>
    rcases List.pairwise_cons.mp h with ⟨hf, hfs⟩
    by_cases hc : f.score < a.score
    · simp only [insertByScore, if_pos hc]
      refine List.pairwise_cons.mpr ⟨?_, h⟩
      intro b hb
      rcases List.mem_cons.mp hb with rfl | hb
      · exact le_of_lt hc
      · exact le_trans (hf b hb) (le_of_lt hc)
    · simp only [insertByScore, if_neg hc]
      refine List.pairwise_cons.mpr ⟨?_, ih hfs⟩
      intro b hb
      rcases mem_insertByScore.mp hb with rfl | hb
      · exact le_of_not_lt hc
      · exact hf b hb

theorem mem_sortByScoreDesc {b : Emotion} {l : List Emotion} :
    b ∈ sortByScoreDesc l ↔ b ∈ l := by
  induction l with
  | nil => simp [sortByScoreDesc]
  | cons e es ih =>
    simp only [sortByScoreDesc, mem_insertByScore, List.mem_cons, ih]

theorem scoreSorted_sortByScoreDesc (l : List Emotion) :
    ScoreSorted (sortByScoreDesc l) := by
  induction l with
  | nil => simp [sortByScoreDesc, ScoreSorted]
  | cons e es ih => exact scoreSorted_insertByScore ih

theorem sortByScoreDesc_ne_nil {l : List Emotion} (h : l ≠ []) :
    sortByScoreDesc l ≠ [] := by
  cases l with
  | nil => exact absurd rfl h
  | cons e es => exact insertByScore_ne_nil e (sortByScoreDesc es)

theorem topOf_spec {l : List Emotion} (h : l ≠ []) :
    topOf l ∈ l ∧ ∀ e ∈ l, e.score ≤ (topOf l).score := by
  have hs := scoreSorted_sortByScoreDesc l
  have hne := sortByScoreDesc_ne_nil h
  cases hsort : sortByScoreDesc l with
  | nil => exact absurd hsort hne
  | cons a t =>
    have htop : topOf l = a := by simp [topOf, hsort]
    constructor
    · rw [htop]
      exact mem_sortByScoreDesc.mp (by rw [hsort]; exact List.mem_cons_self a t)
    · intro e he
      rw [htop]
      have : e ∈ sortByScoreDesc l := mem_sortByScoreDesc.mpr he
      rw [hsort] at this
      rw [ScoreSorted, hsort] at hs
      rcases List.mem_cons.mp this with rfl | hmem
      · exact le_refl _
      · exact (List.pairwise_cons.mp hs).1 e hmem

/-- C1: whenever the primary face (head of the detector's face list) has a
non-empty emotion list, the loop's mood badge, top-mood label and
confidence bar all display the emotion of maximal score in that list —
`topOf` is a member of the list and no member scores strictly higher — with
the badge text `Mood: <emotion> (<score as a percentage with one
decimal>)`. -/
theorem claim_C1_badge_shows_max_emotion (ui0 : UI) (ow oh : Nat)
    (r : DetectResult) (dt : ℚ) (f : Face) (hf : r.face.head? = some f)
    (hne : f.emotion ≠ []) :
    topOf f.emotion ∈ f.emotion ∧
    (∀ e ∈ f.emotion, e.score ≤ (topOf f.emotion).score) ∧
    (loopBody true ui0 ow oh r dt).1.moodBadge =
      "Mood: " ++ (topOf f.emotion).emotion ++ " (" ++
        pct (topOf f.emotion).score ++ ")" ∧
    (loopBody true ui0 ow oh r dt).1.topMood = (topOf f.emotion).emotion ∧
    (loopBody true ui0 ow oh r dt).1.topConfWidth =
      pct (clamp01 (topOf f.emotion).score) := by
  have hspec := topOf_spec hne
  have hlen : f.emotion.length ≠ 0 := fun h0 => hne (List.length_eq_zero.mp h0)
  refine ⟨hspec.1, hspec.2, ?_, ?_, ?_⟩ <;> simp [loopBody, hf, hlen]

/-- C1 at a concrete frame: one face whose emotion list holds sad 0.1 and
happy 0.9. -/
theorem claim_C1_badge_shows_max_emotion_witness :
    topOf [⟨"sad", mkRat 1 10⟩, ⟨"happy", mkRat 9 10⟩] ∈
      [⟨"sad", mkRat 1 10⟩, ⟨"happy", mkRat 9 10⟩] ∧
    (∀ e ∈ [Emotion.mk "sad" (mkRat 1 10), Emotion.mk "happy" (mkRat 9 10)],
      e.score ≤ (topOf [⟨"sad", mkRat 1 10⟩, ⟨"happy", mkRat 9 10⟩]).score) ∧
    (loopBody true ⟨"", "", "", "", 0, .noFace, "", 0⟩ 640 480
        ⟨[⟨[⟨"sad", mkRat 1 10⟩, ⟨"happy", mkRat 9 10⟩]⟩]⟩ 16).1.moodBadge =
      "Mood: " ++ (topOf [⟨"sad", mkRat 1 10⟩, ⟨"happy", mkRat 9 10⟩]).emotion ++
        " (" ++ pct (topOf [⟨"sad", mkRat 1 10⟩, ⟨"happy", mkRat 9 10⟩]).score ++ ")" ∧
    (loopBody true ⟨"", "", "", "", 0, .noFace, "", 0⟩ 640 480
        ⟨[⟨[⟨"sad", mkRat 1 10⟩, ⟨"happy", mkRat 9 10⟩]⟩]⟩ 16).1.topMood =
      (topOf [⟨"sad", mkRat 1 10⟩, ⟨"happy", mkRat 9 10⟩]).emotion ∧
    (loopBody true ⟨"", "", "", "", 0, .noFace, "", 0⟩ 640 480
        ⟨[⟨[⟨"sad", mkRat 1 10⟩, ⟨"happy", mkRat 9 10⟩]⟩]⟩ 16).1.topConfWidth =
      pct (clamp01 (topOf [⟨"sad", mkRat 1 10⟩, ⟨"happy", mkRat 9 10⟩]).score) :=
  claim_C1_badge_shows_max_emotion ⟨"", "", "", "", 0, .noFace, "", 0⟩ 640 480
    ⟨[⟨[⟨"sad", mkRat 1 10⟩, ⟨"happy", mkRat 9 10⟩]⟩]⟩ 16
    ⟨[⟨"sad", mkRat 1 10⟩, ⟨"happy", mkRat 9 10⟩]⟩ rfl (by simp)

/-- C2: a loop iteration with `running` true calls the detector exactly
once and its trace clears the whole overlay (`clearRect 0 0 width height`)
before either drawing call, so no annotation of an earlier frame
survives. -/
theorem claim_C2_loop_detect_once_clear_before_draw (ui0 : UI) (ow oh : Nat)
    (r : DetectResult) (dt : ℚ) :
    (loopBody true ui0 ow oh r dt).2 =
      [Event.detect, Event.clearRect 0 0 ow oh, Event.drawCanvas,
       Event.drawFace, Event.requestAnimationFrame] ∧
    ((loopBody true ui0 ow oh r dt).2.count Event.detect = 1) ∧
    ((loopBody true ui0 ow oh r dt).2.filter
        (fun e => e = Event.drawCanvas ∨ e = Event.drawFace)).length = 2 := by
  refine ⟨?_, ?_, ?_⟩ <;> simp [loopBody, List.count_cons]

/-- C8: `stopCamera` is idempotent on the state it touches: a second call
leaves `running`, `rafId` and `stream` exactly as the first did, and has no
effects at all. -/
theorem claim_C8_stopCamera_idempotent (s : St) :
    (stopCamera (stopCamera s).1).1 = (stopCamera s).1 ∧
    (stopCamera (stopCamera s).1).2 = [] := by
  exact ⟨rfl, rfl⟩

/-- C9: a frame with no faces, or whose primary face has an empty emotion
list, yields the uniform empty state: the `No face detected.` message, the
`Mood: —` badge, the `—` top-mood label and a `0%` confidence bar. -/
theorem claim_C9_no_face_uniform_empty_state (ui0 : UI) (ow oh : Nat)
    (r : DetectResult) (dt : ℚ)
    (h : r.face = [] ∨ ∃ f t, r.face = f :: t ∧ f.emotion = []) :
    (loopBody true ui0 ow oh r dt).1.emotionList = .noFace ∧
    (loopBody true ui0 ow oh r dt).1.moodBadge = "Mood: —" ∧
    (loopBody true ui0 ow oh r dt).1.topMood = "—" ∧
    (loopBody true ui0 ow oh r dt).1.topConfWidth = "0%" := by
  have hemo : (r.face.head?.map Face.emotion).getD [] = [] := by
    rcases h with h | ⟨f, t, hft, hfe⟩
    · simp [h]
    · simp [hft, hfe]
  refine ⟨?_, ?_, ?_, ?_⟩ <;> simp [loopBody, hemo, renderEmotions]

/-- C9 at two concrete frames: a detection with no faces and one whose
only face carries an empty emotion list. -/
theorem claim_C9_no_face_uniform_empty_state_witness :
    ((loopBody true ⟨"", "", "", "", 0, .noFace, "", 0⟩ 640 480 ⟨[]⟩ 16).1.emotionList
        = .noFace ∧
      (loopBody true ⟨"", "", "", "", 0, .noFace, "", 0⟩ 640 480 ⟨[]⟩ 16).1.moodBadge
        = "Mood: —" ∧
      (loopBody true ⟨"", "", "", "", 0, .noFace, "", 0⟩ 640 480 ⟨[]⟩ 16).1.topMood
        = "—" ∧
      (loopBody true ⟨"", "", "", "", 0, .noFace, "", 0⟩ 640 480 ⟨[]⟩ 16).1.topConfWidth
        = "0%") ∧
    ((loopBody true ⟨"", "", "", "", 0, .noFace, "", 0⟩ 640 480 ⟨[⟨[]⟩]⟩ 16).1.emotionList
        = .noFace ∧
      (loopBody true ⟨"", "", "", "", 0, .noFace, "", 0⟩ 640 480 ⟨[⟨[]⟩]⟩ 16).1.moodBadge
        = "Mood: —" ∧
      (loopBody true ⟨"", "", "", "", 0, .noFace, "", 0⟩ 640 480 ⟨[⟨[]⟩]⟩ 16).1.topMood
        = "—" ∧
      (loopBody true ⟨"", "", "", "", 0, .noFace, "", 0⟩ 640 480 ⟨[⟨[]⟩]⟩ 16).1.topConfWidth
        = "0%") :=
  ⟨claim_C9_no_face_uniform_empty_state ⟨"", "", "", "", 0, .noFace, "", 0⟩ 640 480
      ⟨[]⟩ 16 (Or.inl rfl),
    claim_C9_no_face_uniform_empty_state ⟨"", "", "", "", 0, .noFace, "", 0⟩ 640 480
      ⟨[⟨[]⟩]⟩ 16 (Or.inr ⟨⟨[]⟩, [], rfl, rfl⟩)⟩

/-- C10: `clamp01` lands in `[0, 1]` for every rational input, so the
confidence percentage `100 * clamp01 v` lies in `[0, 100]`; and the faces
bar and fps bar widths the loop computes are capped at 100 by their
`Math.min(100, _)`. -/
theorem claim_C10_bar_widths_bounded (v : ℚ) (ui0 : UI) (ow oh : Nat)
    (r : DetectResult) (dt : ℚ) (hdt : 0 < dt) :
    0 ≤ clamp01 v ∧ clamp01 v ≤ 1 ∧
    0 ≤ 100 * clamp01 v ∧ 100 * clamp01 v ≤ 100 ∧
    (loopBody true ui0 ow oh r dt).1.facesBarVal ≤ 100 ∧
    (loopBody true ui0 ow oh r dt).1.fpsBarVal ≤ 100 := by
  have h0 : 0 ≤ clamp01 v := le_max_left 0 _
  have h1 : clamp01 v ≤ 1 := max_le zero_le_one (min_le_left 1 v)
  refine ⟨h0, h1, by positivity, ?_, ?_, ?_⟩
  · nlinarith
  · simp only [loopBody]
    simp
  · simp only [loopBody]
    simp

/-- C10 at a concrete input: `v = 7/2`, a frame of one face and a 16 ms
duration. -/
theorem claim_C10_bar_widths_bounded_witness :
    0 ≤ clamp01 (mkRat 7 2) ∧ clamp01 (mkRat 7 2) ≤ 1 ∧
    0 ≤ 100 * clamp01 (mkRat 7 2) ∧ 100 * clamp01 (mkRat 7 2) ≤ 100 ∧
    (loopBody true ⟨"", "", "", "", 0, .noFace, "", 0⟩ 640 480 ⟨[⟨[]⟩]⟩ 16).1.facesBarVal
      ≤ 100 ∧
    (loopBody true ⟨"", "", "", "", 0, .noFace, "", 0⟩ 640 480 ⟨[⟨[]⟩]⟩ 16).1.fpsBarVal
      ≤ 100 :=
  claim_C10_bar_widths_bounded (mkRat 7 2) ⟨"", "", "", "", 0, .noFace, "", 0⟩ 640 480
    ⟨[⟨[]⟩]⟩ 16 (by norm_num)

theorem filter_storage_stopTracks (ts : List Nat) :
    (ts.map Event.stopTrack).filter (fun e => (storageKey e).isSome) = [] := by
  induction ts with
  | nil => rfl
  | cons t ts ih => simp [storageKey, ih]

/-- C3: after `stopCamera`, `running` is false and both handles are
dropped; every track of a previously held stream receives a stop event;
and with `running` false a loop iteration is the identity with no events,
in particular no detector call, until `startCamera` sets `running`
again. -/
theorem claim_C3_stopCamera_stops_everything (s : St) :
    (stopCamera s).1.running = false ∧
    (stopCamera s).1.rafId = none ∧
    (stopCamera s).1.stream = none ∧
    (∀ ms, s.stream = some ms → ∀ t ∈ ms.tracks,
      Event.stopTrack t ∈ (stopCamera s).2) ∧
    (∀ ui0 ow oh r dt,
      loopBody (stopCamera s).1.running ui0 ow oh r dt = (ui0, [])) := by
  refine ⟨rfl, rfl, rfl, ?_, ?_⟩
  · intro ms hms t ht
    simp only [stopCamera, hms, List.mem_append, List.mem_map]
    exact Or.inr ⟨t, ht, rfl⟩
  · intro ui0 ow oh r dt
    rfl

/-- C3 at a concrete state: a session with a pending frame 7 and a stream
of tracks 1 and 2. -/
theorem claim_C3_stopCamera_stops_everything_witness :
    (stopCamera ⟨true, some 7, some ⟨[1, 2]⟩⟩).1.running = false ∧
    (stopCamera ⟨true, some 7, some ⟨[1, 2]⟩⟩).1.rafId = none ∧
    (stopCamera ⟨true, some 7, some ⟨[1, 2]⟩⟩).1.stream = none ∧
    Event.stopTrack 1 ∈ (stopCamera ⟨true, some 7, some ⟨[1, 2]⟩⟩).2 ∧
    Event.stopTrack 2 ∈ (stopCamera ⟨true, some 7, some ⟨[1, 2]⟩⟩).2 ∧
    loopBody false ⟨"", "", "", "", 0, .noFace, "", 0⟩ 640 480 ⟨[]⟩ 16 =
      (⟨"", "", "", "", 0, .noFace, "", 0⟩, []) := by
  have h := claim_C3_stopCamera_stops_everything ⟨true, some 7, some ⟨[1, 2]⟩⟩
  exact ⟨h.1, h.2.1, h.2.2.1,
    h.2.2.2.1 ⟨[1, 2]⟩ rfl 1 (by decide),
    h.2.2.2.1 ⟨[1, 2]⟩ rfl 2 (by decide),
    h.2.2.2.2 ⟨"", "", "", "", 0, .noFace, "", 0⟩ 640 480 ⟨[]⟩ 16⟩

/-- C4: `startCamera` runs the whole of `stopCamera` first — its trace is
the stop trace followed by the acquisition — so a pending frame is
cancelled and every held track stopped strictly before the new stream is
acquired; on success exactly the new stream is held. At most one stream
and one pending frame exist at any time since `St` holds one optional
handle of each. -/
theorem claim_C4_single_session (s : St) (acq : Option MediaStream) :
    ((startCamera s acq).2.take (stopCamera s).2.length = (stopCamera s).2) ∧
    ((startCamera s acq).2[(stopCamera s).2.length]? = some Event.getUserMedia) ∧
    (∀ i, s.rafId = some i → Event.cancelAnimationFrame i ∈ (stopCamera s).2) ∧
    (∀ ms, s.stream = some ms → ∀ t ∈ ms.tracks,
      Event.stopTrack t ∈ (stopCamera s).2) ∧
    Event.getUserMedia ∉ (stopCamera s).2 ∧
    (∀ ns, acq = some ns →
      (startCamera s acq).1.stream = some ns ∧
      (startCamera s acq).1.running = true ∧
      (startCamera s acq).1.rafId = none) := by
  obtain ⟨rest, htr⟩ :
      ∃ rest, (startCamera s acq).2 =
        (stopCamera s).2 ++ (Event.getUserMedia :: rest) := by
    cases acq with
    | none => exact ⟨[Event.alertShown], rfl⟩
    | some ns => exact ⟨[Event.play, Event.callLoop], rfl⟩
  refine ⟨?_, ?_, ?_, ?_, ?_, ?_⟩
  · rw [htr, List.take_left]
  · rw [htr, List.getElem?_append_right (le_refl _)]
    simp
  · intro i hi
    simp [stopCamera, hi]
  · intro ms hms t ht
    simp only [stopCamera, hms, List.mem_append, List.mem_map]
    exact Or.inr ⟨t, ht, rfl⟩
  · cases hr : s.rafId <;> cases hs : s.stream <;>
      simp [stopCamera, hr, hs]
  · intro ns hns
    subst hns
    exact ⟨rfl, rfl, rfl⟩

/-- C4 at a concrete state: a running session (frame 7 pending, track 3
held) restarted onto a stream with track 9. -/
theorem claim_C4_single_session_witness :
    ((startCamera ⟨true, some 7, some ⟨[3]⟩⟩ (some ⟨[9]⟩)).2.take
        (stopCamera ⟨true, some 7, some ⟨[3]⟩⟩).2.length =
      (stopCamera ⟨true, some 7, some ⟨[3]⟩⟩).2) ∧
    ((startCamera ⟨true, some 7, some ⟨[3]⟩⟩ (some ⟨[9]⟩)).2[
        (stopCamera ⟨true, some 7, some ⟨[3]⟩⟩).2.length]? =
      some Event.getUserMedia) ∧
    Event.cancelAnimationFrame 7 ∈ (stopCamera ⟨true, some 7, some ⟨[3]⟩⟩).2 ∧
    Event.stopTrack 3 ∈ (stopCamera ⟨true, some 7, some ⟨[3]⟩⟩).2 ∧
    Event.getUserMedia ∉ (stopCamera ⟨true, some 7, some ⟨[3]⟩⟩).2 ∧
    (startCamera ⟨true, some 7, some ⟨[3]⟩⟩ (some ⟨[9]⟩)).1.stream = some ⟨[9]⟩ ∧
    (startCamera ⟨true, some 7, some ⟨[3]⟩⟩ (some ⟨[9]⟩)).1.running = true ∧
    (startCamera ⟨true, some 7, some ⟨[3]⟩⟩ (some ⟨[9]⟩)).1.rafId = none := by
  have h := claim_C4_single_session ⟨true, some 7, some ⟨[3]⟩⟩ (some ⟨[9]⟩)
  have hlast := h.2.2.2.2.2 ⟨[9]⟩ rfl
  exact ⟨h.1, h.2.1, h.2.2.1 7 rfl, h.2.2.2.1 ⟨[3]⟩ rfl 3 (by decide),
    h.2.2.2.2.1, hlast.1, hlast.2.1, hlast.2.2⟩

/-- C5: the only localStorage traffic anywhere is on the key `theme`: the
init path performs exactly the one read of `theme`, the theme toggle
exactly the one write of `theme`, and the traces of the loop, of
`stopCamera`, of `startCamera` and of `snapshot` contain no storage event
at all — detection output never reaches storage. -/
theorem claim_C5_storage_only_theme_key (savedTheme : Option String)
    (tmpTracks : List Nat) (cur : Option String) (running : Bool) (ui0 : UI)
    (ow oh : Nat) (r : DetectResult) (dt : ℚ) (s : St)
    (acq : Option MediaStream) (video : Option Unit)
    (overlay : Option (Nat × Nat)) (ts : Nat) :
    ((initEvents savedTheme tmpTracks).filter (fun e => (storageKey e).isSome)
      = [Event.storageRead "theme"]) ∧
    ((themeToggleEvents cur).filter (fun e => (storageKey e).isSome)
      = [Event.storageWrite "theme" (if cur = some "dark" then "light" else "dark")]) ∧
    ((loopBody running ui0 ow oh r dt).2.filter (fun e => (storageKey e).isSome)
      = []) ∧
    ((stopCamera s).2.filter (fun e => (storageKey e).isSome) = []) ∧
    ((startCamera s acq).2.filter (fun e => (storageKey e).isSome) = []) ∧
    ((snapshot video overlay ts).filter (fun e => (storageKey e).isSome) = []) := by
  have hstop : (stopCamera s).2.filter (fun e => (storageKey e).isSome) = [] := by
    cases hr : s.rafId <;> cases hs : s.stream <;>
      simp [stopCamera, hr, hs, storageKey, filter_storage_stopTracks]
  refine ⟨?_, ?_, ?_, hstop, ?_, ?_⟩
  · cases savedTheme <;> simp [initEvents, storageKey, filter_storage_stopTracks]
  · simp [themeToggleEvents, storageKey]
  · cases running <;> simp [loopBody, storageKey]
  · cases acq with
    | none =>
        simp only [startCamera, List.filter_append, hstop]
        simp [storageKey]
    | some ns =>
        simp only [startCamera, List.filter_append, hstop]
        simp [storageKey]
  · rcases video with _ | v <;> rcases overlay with _ | ⟨w, h⟩ <;>
      simp [snapshot, storageKey]

/-- C7: with both elements present, `snapshot` creates a canvas of the
overlay's size, draws the video scaled to that size, then the overlay at
the origin, and downloads it as `mood-<timestamp>.png`; with either
element missing it does nothing. -/
theorem claim_C7_snapshot_composition (w h ts : Nat) (o : Option (Nat × Nat))
    (v : Option Unit) (ts2 ts3 : Nat) :
    snapshot (some ()) (some (w, h)) ts =
      [Event.createCanvas w h, Event.drawVideoScaled 0 0 w h,
       Event.drawOverlayAt 0 0,
       Event.download ("mood-" ++ toString ts ++ ".png")] ∧
    snapshot none o ts2 = [] ∧
    snapshot v none ts3 = [] := by
  refine ⟨rfl, ?_, ?_⟩
  · cases o with
    | none => rfl
    | some p => cases p; rfl
  · cases v <;> rfl

theorem listCameras_eq_mapIdx (devices : List Device)
    (hne : (devices.filter fun d => d.kind = "videoinput").length ≠ 0) :
    listCameras devices =
      (devices.filter fun d => d.kind = "videoinput").mapIdx fun i c =>
        ⟨c.deviceId,
          if c.label = "" then "Camera " ++ toString (i + 1) else c.label,
          false⟩ := by
  simp [listCameras, hne]

/-- C6: `listCameras` rebuilds the select from the devices filtered to
video inputs: when none exist, the single disabled `No camera found`
option; otherwise exactly one enabled option per camera, in order, valued
with its device id and labelled with its label, or `Camera <i+1>` when the
label is empty. -/
theorem claim_C6_listCameras_options (devices : List Device) :
    ((devices.filter fun d => d.kind = "videoinput") = [] →
      listCameras devices = [⟨"", "No camera found", true⟩]) ∧
    (∀ i (hi : i < (devices.filter fun d => d.kind = "videoinput").length),
      (listCameras devices).length =
        (devices.filter fun d => d.kind = "videoinput").length ∧
      (listCameras devices)[i]? =
        some ⟨((devices.filter fun d => d.kind = "videoinput").get ⟨i, hi⟩).deviceId,
          if ((devices.filter fun d => d.kind = "videoinput").get ⟨i, hi⟩).label = ""
          then "Camera " ++ toString (i + 1)
          else ((devices.filter fun d => d.kind = "videoinput").get ⟨i, hi⟩).label,
          false⟩) := by
  constructor
  · intro h
    simp [listCameras, h]
  · intro i hi
    have hne : (devices.filter fun d => d.kind = "videoinput").length ≠ 0 :=
      Nat.pos_iff_ne_zero.mp (lt_of_le_of_lt (Nat.zero_le i) hi)
    rw [listCameras_eq_mapIdx devices hne]
    have hlen : i < ((devices.filter fun d => d.kind = "videoinput").mapIdx fun i c =>
        (⟨c.deviceId,
          if c.label = "" then "Camera " ++ toString (i + 1) else c.label,
          false⟩ : OptionEl)).length := by
      rw [List.length_mapIdx]; exact hi
    refine ⟨List.length_mapIdx, ?_⟩
    rw [List.getElem?_eq_getElem hlen]
    congr 1
    exact List.get_mapIdx _ _ i hi

/-- C6 at two concrete device lists: one with no video input, one with a
microphone and two cameras (the first camera unlabelled). -/
theorem claim_C6_listCameras_options_witness :
    listCameras [⟨"audioinput", "m", "Mic"⟩] = [⟨"", "No camera found", true⟩] ∧
    (listCameras [⟨"audioinput", "m", "Mic"⟩, ⟨"videoinput", "abc", ""⟩,
        ⟨"videoinput", "def", "FaceCam"⟩]).length = 2 ∧
    (listCameras [⟨"audioinput", "m", "Mic"⟩, ⟨"videoinput", "abc", ""⟩,
        ⟨"videoinput", "def", "FaceCam"⟩])[0]? = some ⟨"abc", "Camera 1", false⟩ ∧
    (listCameras [⟨"audioinput", "m", "Mic"⟩, ⟨"videoinput", "abc", ""⟩,
        ⟨"videoinput", "def", "FaceCam"⟩])[1]? = some ⟨"def", "FaceCam", false⟩ := by
  have hempty := (claim_C6_listCameras_options [⟨"audioinput", "m", "Mic"⟩]).1 (by decide)
  have h := (claim_C6_listCameras_options [⟨"audioinput", "m", "Mic"⟩,
    ⟨"videoinput", "abc", ""⟩, ⟨"videoinput", "def", "FaceCam"⟩]).2
  have h0 := h 0 (by decide)
  have h1 := h 1 (by decide)
  refine ⟨hempty, h0.1.trans (by decide), h0.2.trans (by decide),
    h1.2.trans (by decide)⟩

end MoodDetection
